import Mathlib

/-!
# Verification of `check_alerts.py` (dependabot-policy-enforcer)

Shallow embedding of the single-file CI script `check_alerts.py` and proofs
of the behavioural claims about it.  Effectful API calls (GitHub REST) are
modelled by passing their results in explicitly: a `GithubException` value
stands for a raised `github.GithubException`, an `Except` input stands for
an API call that may raise, and `PyResult` is the observable outcome of a
function that may call `sys.exit` or let an exception propagate.
Timestamps are UTC epoch seconds as integers; `datetime.now(timezone.utc)`
becomes an explicit `now` parameter.
-/

namespace CheckAlerts

/-- A `github.GithubException`: an HTTP status and a message (the textual
rendering of the response body). -/
structure GithubException where
  status : Int
  message : String
deriving DecidableEq, Repr

/-- Observable outcome of a Python function that may call `sys.exit(code)`
or let an exception propagate (`raise`). -/
inductive PyResult (α : Type) where
  | ok : α → PyResult α
  | exit : Nat → PyResult α
  | raise : String → PyResult α
deriving DecidableEq, Repr

/-- A raw Dependabot alert record as surfaced by the API wrapper: the fields
of `alert` that `analyze_alerts` reads.  `created_at` is UTC epoch seconds;
`createdAtStr` is what `created_at.strftime("%Y-%m-%d %H:%M:%S UTC")`
renders to. -/
structure RawAlert where
  state : String
  severity : String
  created_at : Int
  createdAtStr : String
  packageName : String
  html_url : String
  summary : String
deriving DecidableEq, Repr

/-- The normalized `alert_info` dictionary built inside `analyze_alerts`.
`threshold_days` is `ALERT_THRESHOLDS.get(severity)`, which is `None`
(here `none`) when the severity is not a key of the table. -/
structure AlertInfo where
  package : String
  severity : String
  age_days : Int
  threshold_days : Option Int
  url : String
  title : String
  created_at : String
deriving DecidableEq, Repr

/-- Python's `str.upper()`.  The severities the script upper-cases are ASCII
(`critical`/`high`/`medium`/`low`), for which Python's `upper` is exactly
per-character ASCII upper-casing. -/
def pyUpper (s : String) : String := ⟨s.data.map Char.toUpper⟩

/-- Whether the first character list is a prefix of the second. -/
def isPrefixOfChars : List Char → List Char → Bool
  | [], _ => true
  | _ :: _, [] => false
  | p :: ps, c :: cs => p == c && isPrefixOfChars ps cs

/-- Python's `s.startswith(p)`. -/
def pyStartsWith (s p : String) : Bool := isPrefixOfChars p.data s.data

/-- Whether `pat` occurs as a contiguous sublist of the second list. -/
def subOccurs (pat : List Char) : List Char → Bool
  | [] => isPrefixOfChars pat []
  | c :: rest => isPrefixOfChars pat (c :: rest) || subOccurs pat rest

/-- Embeds `get_alert_age`: `(now - created_at).days`.  Python's `timedelta.days`
is the floor of the total duration in days, so we use flooring division
on the difference in seconds (negative for future timestamps). -/
def get_alert_age (now created_at : Int) : Int :=
  (now - created_at).fdiv 86400

/-- The alert-info dictionary `analyze_alerts` builds for one alert:
severity upper-cased, age computed from `now`, threshold looked up in the
table (possibly absent). -/
def mkAlertInfo (now : Int) (thresholds : List (String × Int)) (a : RawAlert) : AlertInfo :=
  { package := a.packageName
    severity := pyUpper a.severity
    age_days := get_alert_age now a.created_at
    threshold_days := List.lookup (pyUpper a.severity) thresholds
    url := a.html_url
    title := a.summary
    created_at := a.createdAtStr }

/-- Embeds `analyze_alerts(alerts, ALERT_THRESHOLDS)`.  Skips alerts whose state is
not `"open"`.  For each open alert it builds `alert_info`, appends it to
`all_alerts`, and appends it to `violations` when `age > threshold`.  When
the threshold lookup missed (`None`), the comparison `age > None` raises a
`TypeError`, which propagates out of the function: the whole call is then
`.error` and no lists are returned. -/
def analyze_alerts (now : Int) (alerts : List RawAlert) (thresholds : List (String × Int)) :
    Except String (List AlertInfo × List AlertInfo) :=
  match alerts with
  | [] => Except.ok ([], [])
  | a :: rest =>
    if a.state == "open" then
      let info := mkAlertInfo now thresholds a
      match info.threshold_days with
      | none => Except.error "TypeError: '>' not supported between instances of 'int' and 'NoneType'"
      | some t =>
        match analyze_alerts now rest thresholds with
        | Except.error e => Except.error e
        | Except.ok (violations, all_alerts) =>
          Except.ok
            ((if info.age_days > t then info :: violations else violations),
             info :: all_alerts)
    else
      analyze_alerts now rest thresholds

/-- Whether an alert-info dictionary exceeds its threshold, i.e. would be
appended to `violations` by `analyze_alerts`. -/
def exceeds (i : AlertInfo) : Bool :=
  match i.threshold_days with
  | some t => decide (i.age_days > t)
  | none => false

/-- Python `str(x)` for the value bound to `threshold_days`: an `int`
renders as its digits, `None` renders as `"None"`. -/
def pyOptIntStr : Option Int → String
  | some n => toString n
  | none => "None"

/-- Python's `"\n".join(output)`: the empty string for an empty list, otherwise the
elements separated by single newlines. -/
def joinLines : List String → String
  | [] => ""
  | [l] => l
  | l :: rest@(_ :: _) => l ++ "\n" ++ joinLines rest

/-- The five lines `format_alert_output` appends for one violation. -/
def violationLines (v : AlertInfo) : List String :=
  ["\n\n#### ",
   "- **Severity:** " ++ v.severity,
   "- **Age:** " ++ toString v.age_days ++ " days (Threshold: " ++
     pyOptIntStr v.threshold_days ++ " days)",
   "- **Created:** " ++ v.created_at,
   "- **URL:** " ++ v.url]

/-- Embeds `format_alert_output(violations, all_alerts, REPORT_MODE)`: header and
count lines, then (when violations exist) a violations section and a
mode-dependent closing line, else a single success line; all joined with
newlines. -/
def format_alert_output (violations all_alerts : List AlertInfo) (REPORT_MODE : Bool) : String :=
  let header :=
    ["## Dependabot Alert Summary",
     "Total open alerts: " ++ toString all_alerts.length,
     "Alerts exceeding age threshold: " ++ toString violations.length]
  let body :=
    if violations.isEmpty then
      ["\n:white_check_mark: All alerts are within acceptable age thresholds"]
    else
      ["\n### :x: Violations (Alerts exceeding threshold)"] ++
      (violations.map violationLines).flatten ++
      [if REPORT_MODE then
         "\n:warning: Alerts exceed age thresholds but running in report mode"
       else
         "\n:no_entry: Action failed due to alerts exceeding age thresholds"]
  joinLines (header ++ body)

/-- The event payload fields `get_pr_number` reads:
`event.get("pull_request", {}).get("number")` and `event.get("ref")`. -/
structure EventPayload where
  pull_request_number : Option Int
  ref : Option String
deriving DecidableEq, Repr

/-- An open pull request as returned by `repo.get_pulls`: its number and
its head label `"owner:branch"`. -/
structure PullRequest where
  number : Int
  headLabel : String
deriving DecidableEq, Repr

/-- The repository handle fields `get_pr_number` uses: `repo.owner.login`
and the repository's open pull requests (in API iteration order). -/
structure Repo where
  ownerLogin : String
  openPulls : List PullRequest
deriving DecidableEq, Repr

/-- Embeds `repo.get_pulls(state="open", head=head)`: the open pull requests whose
head label equals `head`, in iteration order. -/
def get_pulls_head (repo : Repo) (head : String) : List PullRequest :=
  repo.openPulls.filter (fun pr => pr.headLabel == head)

/-- Embeds `get_pr_number(repo, event_name, event)`.  For a `pull_request` event it
returns the payload's PR number when that number is truthy (non-zero).  For
a `push` event whose ref starts with `refs/heads/` it returns the number of
the first open PR with head `owner:branch`.  Otherwise `None`. -/
def get_pr_number (repo : Repo) (event_name : String) (event : EventPayload) : Option Int :=
  if event_name == "pull_request" then
    match event.pull_request_number with
    | some n => if n ≠ 0 then some n else none
    | none => none
  else if event_name == "push" then
    match event.ref with
    | some r =>
      if pyStartsWith r "refs/heads/" then
        let branch := r.drop ("refs/heads/".length)
        match get_pulls_head repo (repo.ownerLogin ++ ":" ++ branch) with
        | pr :: _ => some pr.number
        | [] => none
      else none
    | none => none
  else none

/-- The marker heading used for comment identity matching. -/
def marker : String := "## Dependabot Alert Summary"

/-- Python's substring test `pat in s`. -/
def strContains (s pat : String) : Bool :=
  subOccurs pat.data s.data

/-- A REST mutation performed by the comment publisher: editing an existing
comment (identified by its current body) or creating a new one. -/
inductive CommentAction where
  | edit : String → String → CommentAction
  | create : String → CommentAction
deriving DecidableEq, Repr

/-- The effectful environment of `create_or_update_pr_comment`:
`repo.get_pull(pr).get_issue_comments()` either raises or yields the
comment bodies in iteration order, and the `edit` / `create` REST calls
either succeed or raise. -/
structure CommentWorld where
  getPull : Except GithubException (List String)
  editResult : Except GithubException Unit
  createResult : Except GithubException Unit
deriving Repr

/-- The `for comment in pr.get_issue_comments()` loop: the first comment
whose body contains the marker is edited and the loop returns; if none
matches, a new comment is created.  Returns the REST calls performed and
the exception the loop body raised, if any (an attempted call is recorded
even when it raises). -/
def scanComments (editRes createRes : Except GithubException Unit) (body : String) :
    List String → List CommentAction × Option GithubException
  | [] =>
    match createRes with
    | Except.ok _ => ([CommentAction.create body], none)
    | Except.error e => ([CommentAction.create body], some e)
  | c :: rest =>
    if strContains c marker then
      match editRes with
      | Except.ok _ => ([CommentAction.edit c body], none)
      | Except.error e => ([CommentAction.edit c body], some e)
    else
      scanComments editRes createRes body rest

/-- The `try:` block of `create_or_update_pr_comment`: fetch the PR's
comments, then scan.  Yields the REST calls performed and the exception
that reached the `except` clauses, if any. -/
def create_or_update_run (w : CommentWorld) (body : String) :
    List CommentAction × Option GithubException :=
  match w.getPull with
  | Except.error e => ([], some e)
  | Except.ok comments => scanComments w.editResult w.createResult body comments

/-- Embeds `create_or_update_pr_comment(repo, pr_number, body)`.  Both `except`
clauses (for `GithubException` and for any other `Exception`) print the
error and `return`, so every exception raised inside the `try:` block is
swallowed and the function always returns normally: the result is never
`.error`. -/
def create_or_update_pr_comment (w : CommentWorld) (body : String) :
    Except GithubException (List CommentAction) :=
  match create_or_update_run w body with
  | (acts, none) => Except.ok acts
  | (acts, some _) => Except.ok acts

/-- Embeds `post_pr_comment(repo, pr_number, output)`: skipped when there is no PR
number; otherwise calls `create_or_update_pr_comment` inside a `try:`
whose handlers print and re-raise.  The re-raise branch is the
`PyResult.raise` arm. -/
def post_pr_comment (pr_number : Option Int) (w : CommentWorld) (output : String) :
    PyResult (List CommentAction) :=
  match pr_number with
  | none => PyResult.ok []
  | some _ =>
    match create_or_update_pr_comment w output with
    | Except.ok acts => PyResult.ok acts
    | Except.error e => PyResult.raise e.message

/-- Embeds `get_dependabot_alerts(repo)`: on success returns the open alerts; on a
`GithubException` with status 403 it prints guidance and calls
`sys.exit(1)` (whatever the message says); any other exception is
re-raised. -/
def get_dependabot_alerts (fetch : Except GithubException (List RawAlert)) :
    PyResult (List RawAlert) :=
  match fetch with
  | Except.ok alerts => PyResult.ok alerts
  | Except.error e =>
    if e.status == 403 then PyResult.exit 1 else PyResult.raise e.message

/-- Embeds `revoke_installation_token(github)`: a failed `DELETE
/installation/token` exits 1; success continues. -/
def revoke_installation_token (revoke : Except GithubException Unit) : PyResult Unit :=
  match revoke with
  | Except.ok _ => PyResult.ok ()
  | Except.error _ => PyResult.exit 1

/-- The effectful environment of one run of `main_check_alerts`: results of
the alert fetch, the UTC clock reading, the decoded event payload (the
event name and the JSON file contents), the repository handle, the
comment-API environment, and the token-revocation result. -/
structure World where
  fetch : Except GithubException (List RawAlert)
  now : Int
  event_name : String
  event : EventPayload
  repo : Repo
  commentWorld : CommentWorld
  revoke : Except GithubException Unit
deriving Repr

/-- Embeds `main_check_alerts`: fetch → analyze → format → locate PR → post
comment → revoke token → exit 1 iff violations exist and report mode is
off, else exit 0. -/
def main_check_alerts (w : World) (alert_thresholds : List (String × Int))
    (report_mode : Bool) : PyResult Unit :=
  match get_dependabot_alerts w.fetch with
  | PyResult.exit c => PyResult.exit c
  | PyResult.raise m => PyResult.raise m
  | PyResult.ok alerts =>
    match analyze_alerts w.now alerts alert_thresholds with
    | Except.error m => PyResult.raise m
    | Except.ok (violations, all_alerts) =>
      let output := format_alert_output violations all_alerts report_mode
      let pr_number := get_pr_number w.repo w.event_name w.event
      match post_pr_comment pr_number w.commentWorld output with
      | PyResult.exit c => PyResult.exit c
      | PyResult.raise m => PyResult.raise m
      | PyResult.ok _ =>
        match revoke_installation_token w.revoke with
        | PyResult.exit c => PyResult.exit c
        | PyResult.raise m => PyResult.raise m
        | PyResult.ok _ =>
          if violations ≠ [] ∧ ¬ report_mode then PyResult.exit 1 else PyResult.exit 0

/-! ## Sample data for concrete witnesses -/

/-- The default threshold table `{CRITICAL: 3, HIGH: 5, MEDIUM: 14, LOW: 30}`. -/
def defaultThresholds : List (String × Int) :=
  [("CRITICAL", 3), ("HIGH", 5), ("MEDIUM", 14), ("LOW", 30)]

/-- An open `high` alert created at epoch 0; at `now = 864000` (ten days
later) it is 10 days old, exceeding the HIGH threshold of 5. -/
def sampleAlert : RawAlert :=
  ⟨"open", "high", 0, "1970-01-01 00:00:00 UTC", "test_package",
   "http://example.com", "Test summary"⟩

/-- A dismissed alert, which the analyzer must skip. -/
def closedAlert : RawAlert :=
  ⟨"closed", "low", 432000, "1970-01-06 00:00:00 UTC", "test_package_2",
   "http://example.com/2", "Test summary 2"⟩

/-- An open alert whose severity is not a key of the threshold table. -/
def unknownSeverityAlert : RawAlert :=
  ⟨"open", "wat", 0, "1970-01-01 00:00:00 UTC", "pkg",
   "http://example.com/3", "Mystery"⟩

/-! ## Characterization of `analyze_alerts` -/

/-- When `analyze_alerts` returns normally, `all_alerts` is exactly the
normalization of the open alerts in input order, and `violations` is
exactly the sublist of `all_alerts` exceeding their thresholds. -/
theorem analyze_ok_spec (now : Int) (thresholds : List (String × Int)) :
    ∀ (alerts : List RawAlert) (v all : List AlertInfo),
      analyze_alerts now alerts thresholds = Except.ok (v, all) →
      all = (alerts.filter (fun a => a.state == "open")).map (mkAlertInfo now thresholds) ∧
      v = all.filter exceeds := by
  intro alerts
  induction alerts with
  | nil =>
    intro v all h
    simp only [analyze_alerts, Except.ok.injEq, Prod.mk.injEq] at h
    obtain ⟨hv, hall⟩ := h
    subst hv; subst hall
    simp
  | cons a rest ih =>
    intro v all h
    simp only [analyze_alerts] at h
    by_cases hs : (a.state == "open") = true
    · rw [if_pos hs] at h
      cases hth : (mkAlertInfo now thresholds a).threshold_days with
      | none => rw [hth] at h; exact absurd h (by simp)
      | some t =>
        rw [hth] at h
        cases hrec : analyze_alerts now rest thresholds with
        | error e => rw [hrec] at h; exact absurd h (by simp)
        | ok p =>
          obtain ⟨v', all'⟩ := p
          rw [hrec] at h
          simp only [Except.ok.injEq, Prod.mk.injEq] at h
          obtain ⟨hv, hall⟩ := h
          obtain ⟨hall', hv'⟩ := ih v' all' hrec
          subst hv; subst hall
          constructor
          · simp [List.filter_cons, hs, hall']
          · have hex : exceeds (mkAlertInfo now thresholds a) = decide (get_alert_age now a.created_at > t) := by
              simp only [exceeds, hth]
              rfl
            rw [List.filter_cons, hex, hv']
            by_cases hgt : get_alert_age now a.created_at > t
            · simp [hgt, mkAlertInfo]
            · simp [hgt, mkAlertInfo]
    · rw [if_neg hs] at h
      obtain ⟨hall', hv'⟩ := ih v all h
      constructor
      · simp [List.filter_cons, hs, hall']
      · exact hv'

/-- When every open alert's upper-cased severity is a key of the threshold
table, `analyze_alerts` returns normally. -/
theorem analyze_ok_of_thresholds (now : Int) (thresholds : List (String × Int)) :
    ∀ alerts : List RawAlert,
      (∀ a ∈ alerts, a.state = "open" → (List.lookup (pyUpper a.severity) thresholds).isSome) →
      ∃ p, analyze_alerts now alerts thresholds = Except.ok p := by
  intro alerts
  induction alerts with
  | nil => intro _; exact ⟨([], []), rfl⟩
  | cons a rest ih =>
    intro h
    obtain ⟨p, hp⟩ := ih (fun b hb hob => h b (List.mem_cons_of_mem a hb) hob)
    by_cases hs : (a.state == "open") = true
    · have hseq : a.state = "open" := by simpa using hs
      have hsome := h a (List.mem_cons_self a rest) hseq
      obtain ⟨t, ht⟩ := Option.isSome_iff_exists.mp hsome
      have hproj : (mkAlertInfo now thresholds a).threshold_days = some t := by
        simpa [mkAlertInfo] using ht
      obtain ⟨v', all'⟩ := p
      refine ⟨((if (mkAlertInfo now thresholds a).age_days > t then
                  mkAlertInfo now thresholds a :: v' else v'),
               mkAlertInfo now thresholds a :: all'), ?_⟩
      simp only [analyze_alerts, if_pos hs, hproj, hp]
    · refine ⟨p, ?_⟩
      simp only [analyze_alerts, if_neg hs, hp]

/-- When `analyze_alerts` returns normally, every open alert's upper-cased
severity was found in the threshold table. -/
theorem analyze_thresholds_of_ok (now : Int) (thresholds : List (String × Int)) :
    ∀ (alerts : List RawAlert) (p : List AlertInfo × List AlertInfo),
      analyze_alerts now alerts thresholds = Except.ok p →
      ∀ a ∈ alerts, a.state = "open" → (List.lookup (pyUpper a.severity) thresholds).isSome := by
  intro alerts
  induction alerts with
  | nil => intro p _ a ha; simp at ha
  | cons a rest ih =>
    intro p hp b hb hopen
    simp only [analyze_alerts] at hp
    by_cases hs : (a.state == "open") = true
    · rw [if_pos hs] at hp
      cases hth : (mkAlertInfo now thresholds a).threshold_days with
      | none => rw [hth] at hp; simp at hp
      | some t =>
        rw [hth] at hp
        cases hrec : analyze_alerts now rest thresholds with
        | error e => rw [hrec] at hp; simp at hp
        | ok q =>
          rcases List.mem_cons.mp hb with hba | hbr
          · subst hba
            have hbth : List.lookup (pyUpper b.severity) thresholds = some t := by
              simpa [mkAlertInfo] using hth
            simp [hbth]
          · exact ih q hrec b hbr hopen
    · rw [if_neg hs] at hp
      rcases List.mem_cons.mp hb with hba | hbr
      · subst hba
        exact absurd (by simpa using hopen : (b.state == "open") = true) hs
      · exact ih p hp b hbr hopen

/-! ## Comment publisher and exit-path lemmas -/

/-- Whatever the comment API does, `post_pr_comment` returns normally. -/
theorem post_pr_comment_ok_aux (pr_number : Option Int) (w : CommentWorld) (output : String) :
    ∃ acts, post_pr_comment pr_number w output = PyResult.ok acts := by
  cases pr_number with
  | none => exact ⟨[], rfl⟩
  | some n =>
    rcases h : create_or_update_run w output with ⟨acts, exc⟩
    cases exc with
    | none => exact ⟨acts, by simp [post_pr_comment, create_or_update_pr_comment, h]⟩
    | some e => exact ⟨acts, by simp [post_pr_comment, create_or_update_pr_comment, h]⟩

/-- The comment-scanning loop edits the first marker-bearing comment and
stops, or creates one comment when no body contains the marker. -/
theorem scanComments_spec (editRes createRes : Except GithubException Unit) (body : String) :
    ∀ comments : List String,
      ((∃ c ∈ comments, strContains c marker = true) →
        ∃ pre c post, comments = pre ++ c :: post ∧ strContains c marker = true ∧
          (∀ c' ∈ pre, strContains c' marker = false) ∧
          (scanComments editRes createRes body comments).1 = [CommentAction.edit c body]) ∧
      ((∀ c ∈ comments, strContains c marker = false) →
        (scanComments editRes createRes body comments).1 = [CommentAction.create body]) := by
  intro comments
  induction comments with
  | nil =>
    constructor
    · rintro ⟨c, hc, _⟩; simp at hc
    · intro _
      cases createRes <;> rfl
  | cons c rest ih =>
    by_cases hm : strContains c marker = true
    · constructor
      · intro _
        refine ⟨[], c, rest, by simp, hm, by simp, ?_⟩
        simp only [scanComments, if_pos hm]
        cases editRes <;> rfl
      · intro hnone
        exact absurd hm (by simp [hnone c (List.mem_cons_self c rest)])
    · have hm' : strContains c marker = false := by simpa using hm
      constructor
      · rintro ⟨d, hd, hdm⟩
        rcases List.mem_cons.mp hd with hdc | hdr
        · subst hdc; exact absurd hdm hm
        · obtain ⟨pre, e, post, hsplit, hem, hpre, hres⟩ := ih.1 ⟨d, hdr, hdm⟩
          refine ⟨c :: pre, e, post, by simp [hsplit], hem, ?_, ?_⟩
          · intro c' hc'
            rcases List.mem_cons.mp hc' with hcc | hcp
            · subst hcc; exact hm'
            · exact hpre c' hcp
          · simpa [scanComments, hm'] using hres
      · intro hnone
        have := ih.2 (fun d hd => hnone d (List.mem_cons_of_mem c hd))
        simpa [scanComments, hm'] using this

/-! ## Claim theorems -/

/-- Claim C2 is refuted by the code (and by the repository's own unit test
`test_get_dependabot_alerts_disabled`): a 403 whose message says
Dependabot alerts are disabled for the repository still hits the
unconditional `e.status == 403` branch and terminates the process with
exit code 1, instead of returning an empty alert list. -/
theorem claim2_disabled_403_still_exits :
    get_dependabot_alerts (Except.error
      ⟨403, "Dependabot alerts are disabled for this repository."⟩) =
      PyResult.exit 1 := rfl

/-- Claim C10: `create_or_update_pr_comment` catches every exception, so
`post_pr_comment` never propagates a comment-posting error: its re-raise
branch is unreachable and it always returns normally. -/
theorem claim10_post_comment_never_raises (pr_number : Option Int)
    (w : CommentWorld) (output : String) :
    ∃ acts, post_pr_comment pr_number w output = PyResult.ok acts :=
  post_pr_comment_ok_aux pr_number w output

/-- Claim C3: when the run reaches the terminal decision (fetch, analysis
and token revocation all succeed), the exit code is 0 without violations,
0 with violations in report mode, and 1 with violations otherwise. -/
theorem claim3_exit_policy (w : World) (thresholds : List (String × Int))
    (report_mode : Bool) (alerts : List RawAlert) (v all : List AlertInfo)
    (hf : w.fetch = Except.ok alerts)
    (ha : analyze_alerts w.now alerts thresholds = Except.ok (v, all))
    (hr : w.revoke = Except.ok ()) :
    main_check_alerts w thresholds report_mode =
      PyResult.exit (if v = [] then 0 else if report_mode then 0 else 1) := by
  obtain ⟨acts, hpost⟩ := post_pr_comment_ok_aux
    (get_pr_number w.repo w.event_name w.event) w.commentWorld
    (format_alert_output v all report_mode)
  simp only [main_check_alerts, get_dependabot_alerts, hf, ha, hpost,
    revoke_installation_token, hr]
  by_cases hv : v = []
  · simp [hv]
  · cases report_mode <;> simp [hv]

/-- Claim C3 witness: one HIGH violation in blocking mode exits 1. -/
theorem claim3_witness :
    main_check_alerts
      ⟨Except.ok [sampleAlert], 864000, "pull_request", ⟨some 123, none⟩,
       ⟨"test_owner", []⟩, ⟨Except.ok [], Except.ok (), Except.ok ()⟩,
       Except.ok ()⟩
      defaultThresholds false =
      PyResult.exit 1 := by
  have h := claim3_exit_policy
    ⟨Except.ok [sampleAlert], 864000, "pull_request", ⟨some 123, none⟩,
     ⟨"test_owner", []⟩, ⟨Except.ok [], Except.ok (), Except.ok ()⟩,
     Except.ok ()⟩
    defaultThresholds false [sampleAlert]
    [mkAlertInfo 864000 defaultThresholds sampleAlert]
    [mkAlertInfo 864000 defaultThresholds sampleAlert]
    rfl rfl rfl
  simpa using h

/-- Claim C5: every formatter output begins with the exact marker line
`## Dependabot Alert Summary` followed by the total-open-alerts count line
and the violation count line; and with no violations the entire output is
exactly those three lines plus the single success line, with no violation
blocks. -/
theorem claim5_format_header (v all : List AlertInfo) (r : Bool) :
    (∃ rest, format_alert_output v all r =
      "## Dependabot Alert Summary\nTotal open alerts: " ++ toString all.length ++
      "\nAlerts exceeding age threshold: " ++ toString v.length ++ rest) ∧
    (v = [] → format_alert_output v all r =
      "## Dependabot Alert Summary\nTotal open alerts: " ++ toString all.length ++
      "\nAlerts exceeding age threshold: 0\n\n:white_check_mark: All alerts are within acceptable age thresholds") := by
  constructor
  · by_cases hv : v.isEmpty
    · have hve : v = [] := by simpa using hv
      subst hve
      refine ⟨"\n\n:white_check_mark: All alerts are within acceptable age thresholds", ?_⟩
      simp [format_alert_output, joinLines, String.append_assoc]
      rw [← String.append_assoc "## Dependabot Alert Summary\n" "Total open alerts: ",
          ← String.append_assoc "\n" "Alerts exceeding age threshold: "]
      rfl
    · refine ⟨"\n" ++ joinLines
        (["\n### :x: Violations (Alerts exceeding threshold)"] ++
         (v.map violationLines).flatten ++
         [if r then "\n:warning: Alerts exceed age thresholds but running in report mode"
          else "\n:no_entry: Action failed due to alerts exceeding age thresholds"]), ?_⟩
      simp [format_alert_output, joinLines, hv, String.append_assoc]
      rw [← String.append_assoc "## Dependabot Alert Summary\n" "Total open alerts: ",
          ← String.append_assoc "\n" "Alerts exceeding age threshold: "]
      rfl
  · intro hve
    subst hve
    simp [format_alert_output, joinLines, String.append_assoc]
    rw [← String.append_assoc]
    rfl

/-- Claim C5 witness: with one open alert and no violations the output is
exactly header, counts and the success line. -/
theorem claim5_witness :
    format_alert_output [] [mkAlertInfo 864000 defaultThresholds sampleAlert] true =
      "## Dependabot Alert Summary\nTotal open alerts: " ++
      toString (List.length [mkAlertInfo 864000 defaultThresholds sampleAlert]) ++
      "\nAlerts exceeding age threshold: 0\n\n:white_check_mark: All alerts are within acceptable age thresholds" :=
  (claim5_format_header [] [mkAlertInfo 864000 defaultThresholds sampleAlert] true).2 rfl

/-- Claim C9: the formatter is deterministic — identical
`(violations, all_alerts, report_mode)` inputs produce byte-identical
strings; the embedded function reads no clock or other hidden state. -/
theorem claim9_formatter_deterministic (v₁ v₂ a₁ a₂ : List AlertInfo) (r₁ r₂ : Bool)
    (hv : v₁ = v₂) (ha : a₁ = a₂) (hr : r₁ = r₂) :
    format_alert_output v₁ a₁ r₁ = format_alert_output v₂ a₂ r₂ := by
  rw [hv, ha, hr]

/-- Claim C6: when some existing comment body contains the marker, exactly
one edit of the first such comment is performed and no create; when no
body contains it, exactly one create and no edit — so at most one
bot-summary comment exists per PR. -/
theorem claim6_publisher_idempotent (w : CommentWorld) (comments : List String)
    (body : String) (hget : w.getPull = Except.ok comments) :
    ((∃ c ∈ comments, strContains c marker = true) →
      ∃ pre c post, comments = pre ++ c :: post ∧ strContains c marker = true ∧
        (∀ c' ∈ pre, strContains c' marker = false) ∧
        create_or_update_pr_comment w body = Except.ok [CommentAction.edit c body]) ∧
    ((∀ c ∈ comments, strContains c marker = false) →
      create_or_update_pr_comment w body = Except.ok [CommentAction.create body]) := by
  have hrun : create_or_update_run w body =
      scanComments w.editResult w.createResult body comments := by
    simp [create_or_update_run, hget]
  have heq : ∀ acts : List CommentAction,
      (scanComments w.editResult w.createResult body comments).1 = acts →
      create_or_update_pr_comment w body = Except.ok acts := by
    intro acts hacts
    rcases hsc : scanComments w.editResult w.createResult body comments with ⟨a, exc⟩
    rw [hsc] at hacts
    cases exc <;>
      simp [create_or_update_pr_comment, hrun, hsc, ← hacts]
  obtain ⟨h1, h2⟩ := scanComments_spec w.editResult w.createResult body comments
  constructor
  · intro hex
    obtain ⟨pre, c, post, hsplit, hcm, hpre, hres⟩ := h1 hex
    exact ⟨pre, c, post, hsplit, hcm, hpre, heq _ hres⟩
  · intro hnone
    exact heq _ (h2 hnone)

/-- Claim C6 witness: a PR with a marker-bearing second comment gets that
comment edited; a PR with no marker-bearing comment gets a creation. -/
theorem claim6_witness :
    (∃ pre c post,
      (["hello", "## Dependabot Alert Summary old"] : List String) = pre ++ c :: post ∧
      strContains c marker = true ∧
      (∀ c' ∈ pre, strContains c' marker = false) ∧
      create_or_update_pr_comment
        ⟨Except.ok ["hello", "## Dependabot Alert Summary old"], Except.ok (), Except.ok ()⟩
        "new body" = Except.ok [CommentAction.edit c "new body"]) ∧
    create_or_update_pr_comment ⟨Except.ok ["hello"], Except.ok (), Except.ok ()⟩
      "new body" = Except.ok [CommentAction.create "new body"] :=
  ⟨(claim6_publisher_idempotent
      ⟨Except.ok ["hello", "## Dependabot Alert Summary old"], Except.ok (), Except.ok ()⟩
      ["hello", "## Dependabot Alert Summary old"] "new body" rfl).1
      ⟨"## Dependabot Alert Summary old", by simp, by decide⟩,
   (claim6_publisher_idempotent ⟨Except.ok ["hello"], Except.ok (), Except.ok ()⟩
      ["hello"] "new body" rfl).2
      (by intro c hc; rw [List.mem_singleton.mp hc]; decide)⟩

/-- Claim C7: the PR locator returns the payload's number 123 for a
`pull_request` event; for a `push` event on `refs/heads/foo` it returns
the first open PR whose head is `owner:foo`, or `None` when none matches;
and `None` for any other event name. -/
theorem claim7_pr_locator (repo : Repo) (event : EventPayload) :
    (get_pr_number repo "pull_request" ⟨some 123, event.ref⟩ = some 123) ∧
    (∀ (prn : Option Int) (pr : PullRequest) (rest : List PullRequest),
       get_pulls_head repo (repo.ownerLogin ++ ":" ++ "foo") = pr :: rest →
       get_pr_number repo "push" ⟨prn, some "refs/heads/foo"⟩ = some pr.number) ∧
    (∀ prn : Option Int,
       get_pulls_head repo (repo.ownerLogin ++ ":" ++ "foo") = [] →
       get_pr_number repo "push" ⟨prn, some "refs/heads/foo"⟩ = none) ∧
    (∀ (name : String) (ev : EventPayload), name ≠ "pull_request" → name ≠ "push" →
       get_pr_number repo name ev = none) := by
  refine ⟨rfl, ?_, ?_, ?_⟩
  · intro prn pr rest h
    have e : get_pr_number repo "push" ⟨prn, some "refs/heads/foo"⟩ =
        (match get_pulls_head repo (repo.ownerLogin ++ ":" ++ "foo") with
         | p :: _ => some p.number
         | [] => none) := rfl
    rw [e, h]
  · intro prn h
    have e : get_pr_number repo "push" ⟨prn, some "refs/heads/foo"⟩ =
        (match get_pulls_head repo (repo.ownerLogin ++ ":" ++ "foo") with
         | p :: _ => some p.number
         | [] => none) := rfl
    rw [e, h]
  · intro name ev h1 h2
    have b1 : (name == "pull_request") = false := beq_eq_false_iff_ne.mpr h1
    have b2 : (name == "push") = false := beq_eq_false_iff_ne.mpr h2
    simp [get_pr_number, b1, b2]

/-- Claim C7 witness: concrete payloads and PR lists exercising the four
locator cases. -/
theorem claim7_witness :
    (get_pr_number ⟨"test_owner", [⟨456, "test_owner:foo"⟩]⟩ "pull_request"
      ⟨some 123, none⟩ = some 123) ∧
    (get_pr_number ⟨"test_owner", [⟨456, "test_owner:foo"⟩]⟩ "push"
      ⟨none, some "refs/heads/foo"⟩ = some 456) ∧
    (get_pr_number ⟨"test_owner", []⟩ "push"
      ⟨none, some "refs/heads/foo"⟩ = none) ∧
    (get_pr_number ⟨"test_owner", [⟨456, "test_owner:foo"⟩]⟩ "schedule"
      ⟨some 9, none⟩ = none) :=
  ⟨(claim7_pr_locator ⟨"test_owner", [⟨456, "test_owner:foo"⟩]⟩ ⟨none, none⟩).1,
   (claim7_pr_locator ⟨"test_owner", [⟨456, "test_owner:foo"⟩]⟩ ⟨none, none⟩).2.1
     none ⟨456, "test_owner:foo"⟩ [] rfl,
   (claim7_pr_locator ⟨"test_owner", []⟩ ⟨none, none⟩).2.2.1 none rfl,
   (claim7_pr_locator ⟨"test_owner", [⟨456, "test_owner:foo"⟩]⟩ ⟨none, none⟩).2.2.2
     "schedule" ⟨some 9, none⟩ (by decide) (by decide)⟩

/-- Claim C9 witness: two runs on equal concrete inputs agree. -/
theorem claim9_witness :
    format_alert_output [] [mkAlertInfo 864000 defaultThresholds sampleAlert] true =
    format_alert_output [] [mkAlertInfo 864000 defaultThresholds sampleAlert] true :=
  claim9_formatter_deterministic [] []
    [mkAlertInfo 864000 defaultThresholds sampleAlert]
    [mkAlertInfo 864000 defaultThresholds sampleAlert]
    true true rfl rfl rfl

/-- Claim C1: for every alert record included by the analyzer (state
`"open"` and upper-cased severity present in the threshold table), the
alert's normalized record appears in the violations list iff its age in
days is strictly greater than the threshold for its severity; equality is
not a violation. -/
theorem claim1_violation_iff_strict_age (now : Int) (thresholds : List (String × Int))
    (alerts : List RawAlert) (v all : List AlertInfo) (a : RawAlert) (t : Int)
    (hok : analyze_alerts now alerts thresholds = Except.ok (v, all))
    (ha : a ∈ alerts) (hopen : a.state = "open")
    (hth : List.lookup (pyUpper a.severity) thresholds = some t) :
    mkAlertInfo now thresholds a ∈ v ↔ get_alert_age now a.created_at > t := by
  obtain ⟨hall, hv⟩ := analyze_ok_spec now thresholds alerts v all hok
  have hproj : (mkAlertInfo now thresholds a).threshold_days = some t := by
    simpa [mkAlertInfo] using hth
  constructor
  · intro hmem
    rw [hv] at hmem
    have hexc := List.of_mem_filter hmem
    simp only [exceeds, hproj] at hexc
    simpa [mkAlertInfo] using hexc
  · intro hgt
    rw [hv]
    apply List.mem_filter.mpr
    constructor
    · rw [hall]
      apply List.mem_map_of_mem
      exact List.mem_filter.mpr ⟨ha, by simpa using hopen⟩
    · simp only [exceeds, hproj]
      simpa [mkAlertInfo] using hgt

/-- Claim C1 witness: at `now = 864000` the sample HIGH alert (age 10,
threshold 5) is a violation. -/
theorem claim1_witness :
    mkAlertInfo 864000 defaultThresholds sampleAlert ∈
      [mkAlertInfo 864000 defaultThresholds sampleAlert] ↔
    get_alert_age 864000 sampleAlert.created_at > 5 :=
  claim1_violation_iff_strict_age 864000 defaultThresholds [sampleAlert]
    [mkAlertInfo 864000 defaultThresholds sampleAlert]
    [mkAlertInfo 864000 defaultThresholds sampleAlert]
    sampleAlert 5 rfl (List.mem_singleton.mpr rfl) rfl rfl

/-- Claim C4: the analyzer's outputs are built solely from the alerts whose
state is `"open"`, in input iteration order: `all_alerts` is the in-order
normalization of the open alerts, and `violations` is its in-order
sublist of threshold-exceeders, so non-open alerts contribute to
neither list. -/
theorem claim4_open_filter_order (now : Int) (thresholds : List (String × Int))
    (alerts : List RawAlert) (v all : List AlertInfo)
    (hok : analyze_alerts now alerts thresholds = Except.ok (v, all)) :
    all = (alerts.filter (fun a => a.state == "open")).map (mkAlertInfo now thresholds) ∧
    v = ((alerts.filter (fun a => a.state == "open")).map
          (mkAlertInfo now thresholds)).filter exceeds := by
  obtain ⟨hall, hv⟩ := analyze_ok_spec now thresholds alerts v all hok
  exact ⟨hall, by rw [hv, hall]⟩

/-- Claim C4 witness: on `[sampleAlert, closedAlert]` the closed alert is
dropped from both outputs. -/
theorem claim4_witness :
    analyze_alerts 864000 [sampleAlert, closedAlert] defaultThresholds =
      Except.ok ([mkAlertInfo 864000 defaultThresholds sampleAlert],
                 [mkAlertInfo 864000 defaultThresholds sampleAlert]) ∧
    ([mkAlertInfo 864000 defaultThresholds sampleAlert] : List AlertInfo) =
      (([sampleAlert, closedAlert].filter (fun a => a.state == "open")).map
        (mkAlertInfo 864000 defaultThresholds)) ∧
    ([mkAlertInfo 864000 defaultThresholds sampleAlert] : List AlertInfo) =
      ((([sampleAlert, closedAlert].filter (fun a => a.state == "open")).map
        (mkAlertInfo 864000 defaultThresholds)).filter exceeds) :=
  ⟨rfl,
   claim4_open_filter_order 864000 defaultThresholds [sampleAlert, closedAlert]
     [mkAlertInfo 864000 defaultThresholds sampleAlert]
     [mkAlertInfo 864000 defaultThresholds sampleAlert] rfl⟩

/-- Claim C8: if some open alert's upper-cased severity is absent from the
threshold table, the analyzer raises (the `int > None` comparison is a
`TypeError`); conversely, when every open alert's upper-cased severity is
a key of the table, the error branch is unreachable and the analyzer
returns normally. -/
theorem claim8_missing_threshold_error (now : Int) (thresholds : List (String × Int))
    (alerts : List RawAlert) :
    ((∃ a ∈ alerts, a.state = "open" ∧
        List.lookup (pyUpper a.severity) thresholds = none) →
      ∃ msg, analyze_alerts now alerts thresholds = Except.error msg) ∧
    ((∀ a ∈ alerts, a.state = "open" →
        (List.lookup (pyUpper a.severity) thresholds).isSome) →
      ∃ p, analyze_alerts now alerts thresholds = Except.ok p) := by
  constructor
  · rintro ⟨a, ha, hopen, hnone⟩
    cases hres : analyze_alerts now alerts thresholds with
    | error m => exact ⟨m, rfl⟩
    | ok p =>
      have hsome := analyze_thresholds_of_ok now thresholds alerts p hres a ha hopen
      rw [hnone] at hsome
      simp at hsome
  · exact analyze_ok_of_thresholds now thresholds alerts

/-- Claim C8 witness: an unknown severity makes the analyzer raise, and a
known severity makes it return normally. -/
theorem claim8_witness :
    (∃ msg, analyze_alerts 864000 [unknownSeverityAlert] defaultThresholds =
      Except.error msg) ∧
    (∃ p, analyze_alerts 864000 [sampleAlert] defaultThresholds = Except.ok p) :=
  ⟨(claim8_missing_threshold_error 864000 defaultThresholds [unknownSeverityAlert]).1
     ⟨unknownSeverityAlert, List.mem_singleton.mpr rfl, rfl, rfl⟩,
   (claim8_missing_threshold_error 864000 defaultThresholds [sampleAlert]).2
     (by intro a ha hopen; rw [List.mem_singleton.mp ha]; rfl)⟩

end CheckAlerts
